import Mathlib

/-!
Shallow embedding of the service + repository core of the
`my_super_library_prod` CRUD backend (FastAPI + Motor/MongoDB), for checking
its natural-language specification.

Modelled from `src/repositories/book_repository.py`,
`src/repositories/user_repostory.py`, `src/services/book_service.py`,
`src/services/user_service.py` and the pydantic models in
`src/schemas/book.py`, `src/schemas/users.py`.

Modelling conventions:
* A MongoDB document is an association list of field name to `Value`
  (string / int / date).  A collection is the list of its documents in
  insertion ("natural") order; the store-assigned `_id` is a 24-character
  hex string kept inside the document, as in MongoDB.
* The document store itself is an external collaborator; its operations
  (`insert_one`, `find_one`, `find` with skip/limit, `update_one` with a
  `set` document, `delete_one`) are modelled with their documented MongoDB
  semantics.  `find_one`/`update_one`/`delete_one` act on the first
  matching document; `limit 0` means "no limit"; a negative limit caps the
  result at its absolute value.
* Python exceptions (`ValueError`, `KeyError`, `RuntimeError`, pydantic
  `ValidationError`, FastAPI `HTTPException`) become the `PyErr` error type
  of an `Except`.  Functions that may both write and raise return the
  resulting collection next to the `Except`, so that writes performed
  before a raise are kept, exactly as in the Python code.
* pydantic model construction is modelled by an explicit validation
  function over the keyword arguments actually passed at the call site;
  a required field that is absent from the passed arguments is a
  validation error, as in pydantic v2.
* Request-level shape validation (e-mail format of `EmailStr`, field
  types of the JSON body) is the presentation layer's responsibility per
  the specification and is not re-modelled; e-mails are plain strings.
-/

/-- A date value (`datetime.date`); real clock time is never inspected by
the verified properties, the conversion-time clock year is threaded as an
explicit `todayYear` parameter where `model_dump` serialises the computed
field `age_since_publication`. -/
structure PyDate where
  y : Int
  m : Nat
  d : Nat
deriving DecidableEq, Repr

/-- A BSON/JSON field value as used by the two collections. -/
inductive Value where
  | vStr (s : String)
  | vInt (n : Int)
  | vDate (d : PyDate)
deriving DecidableEq, Repr

open Value

/-- A MongoDB document: field names with their values. -/
abbrev Doc := List (String × Value)

/-- A MongoDB collection: its documents in natural (insertion) order. -/
abbrev Collection := List Doc

/-- First value stored under key `k`, if any (documents built by the code
have pairwise distinct keys). -/
def getField (d : Doc) (k : String) : Option Value :=
  match d with
  | [] => none
  | (k', v) :: rest => if k' = k then some v else getField rest k

/-- Set field `k` to `v`: replace the first binding of `k`, or append a new
binding (MongoDB `set` behaviour on one field). -/
def setField (d : Doc) (k : String) (v : Value) : Doc :=
  match d with
  | [] => [(k, v)]
  | (k', v') :: rest => if k' = k then (k, v) :: rest else (k', v') :: setField rest k v

/-- Apply a `set` update document field by field. -/
def setFields (d : Doc) (u : List (String × Value)) : Doc :=
  u.foldl (fun acc kv => setField acc kv.1 kv.2) d

/-- Python exceptions and FastAPI `HTTPException`s raised by the layers
under verification. -/
inductive PyErr where
  | keyError (k : String)
  | valueError (msg : String)
  | validationError (msg : String)
  | runtimeError (msg : String)
  | httpException (statusCode : Nat) (detail : String)
deriving DecidableEq, Repr

/-- Python `doc[k]`: raises `KeyError` when the field is absent. -/
def Doc.item (d : Doc) (k : String) : Except PyErr Value :=
  match getField d k with
  | some v => .ok v
  | none => .error (.keyError k)

/-- MongoDB exact-match query: every constraint field must be present with
exactly the given value. -/
def docMatches (d : Doc) (q : List (String × Value)) : Bool :=
  q.all (fun kv => decide (getField d kv.1 = some kv.2))

/-- `find_one(query)`: first document of the collection matching the query. -/
def find_one (col : Collection) (q : List (String × Value)) : Option Doc :=
  col.find? (fun d => docMatches d q)

/-- The query `\x7b"_id": oid\x7d` used for lookups by identifier. -/
def idQuery (oid : String) : List (String × Value) := [("_id", vStr oid)]

/-- `insert_one`: the store appends the document, with the assigned
identifier stored in its `_id` field. -/
def insert_one (col : Collection) (oid : String) (d : Doc) : Collection :=
  col ++ [setField d "_id" (vStr oid)]

/-- `update_one(query, set u)`: partially updates the first matching
document; returns the new collection and `matched_count`. -/
def update_one (col : Collection) (q : List (String × Value)) (u : List (String × Value)) :
    Collection × Nat :=
  match col with
  | [] => ([], 0)
  | d :: rest =>
    if docMatches d q then (setFields d u :: rest, 1)
    else
      let r := update_one rest q u
      (d :: r.1, r.2)

/-- `delete_one(query)`: removes the first matching document; returns the
new collection and `deleted_count`. -/
def delete_one (col : Collection) (q : List (String × Value)) : Collection × Nat :=
  match col with
  | [] => ([], 0)
  | d :: rest =>
    if docMatches d q then (rest, 1)
    else
      let r := delete_one rest q
      (d :: r.1, r.2)

/-- The documents matching a `find(query)`. -/
def matchingDocs (col : Collection) (q : List (String × Value)) : List Doc :=
  col.filter (fun d => docMatches d q)

/-- Cursor `skip`: drop the first `skip` results (the repositories are only
invoked with `skip` at least 0). -/
def mongoSkip (skip : Int) (xs : List Doc) : List Doc :=
  xs.drop skip.toNat

/-- Cursor `limit`: MongoDB semantics — `limit 0` is "no limit", a nonzero
limit caps the result at its absolute value. -/
def mongoLimit (limit : Int) (xs : List Doc) : List Doc :=
  if limit = 0 then xs else xs.take limit.natAbs

/-- `bson.ObjectId.is_valid` on a string: 24 hexadecimal characters. -/
def isHexChar (c : Char) : Bool :=
  (48 ≤ c.toNat && c.toNat ≤ 57) || (97 ≤ c.toNat && c.toNat ≤ 102) ||
    (65 ≤ c.toNat && c.toNat ≤ 70)

/-- Syntactic validity of a store identifier string. -/
def isValidObjectId (s : String) : Bool :=
  s.length = 24 && s.data.all isHexChar

/-- Python `str.lower` on one character (the data exercised by the code is
ASCII). -/
def pyCharLower (c : Char) : Char :=
  if 65 ≤ c.toNat && c.toNat ≤ 90 then Char.ofNat (c.toNat + 32) else c

/-- Python whitespace as stripped by `str.strip`. -/
def pyIsSpace (c : Char) : Bool :=
  c.toNat = 32 || (9 ≤ c.toNat && c.toNat ≤ 13)

/-- `str.strip` on the character list. -/
def stripChars (xs : List Char) : List Char :=
  ((xs.dropWhile pyIsSpace).reverse.dropWhile pyIsSpace).reverse

/-- Python `value.strip()`. -/
def pyStrip (s : String) : String := ⟨stripChars s.data⟩

/-- Python `value.lower()`. -/
def pyLower (s : String) : String := ⟨s.data.map pyCharLower⟩

/-- `_normalize_str` shared by both services: `value.strip().lower()`. -/
def normalize_str (value : String) : String := pyLower (pyStrip value)

/-! ### pydantic models (`src/schemas/book.py`, `src/schemas/users.py`) -/

/-- `BookCreate` (all `BookBase` fields required; instances exist only
after request-level validation, which the spec assigns to the presentation
layer). -/
structure BookCreate where
  title : String
  author : String
  published_year : PyDate
  genre : String
  total_copies : Int
deriving DecidableEq, Repr

/-- `BookCreate.model_dump()`: all base fields plus the computed field
`age_since_publication` (pydantic v2 serialises computed fields), whose
value needs the current clock year, passed in as `todayYear`. -/
def BookCreate.model_dump (b : BookCreate) (todayYear : Int) : Doc :=
  [("title", vStr b.title), ("author", vStr b.author),
   ("published_year", vDate b.published_year), ("genre", vStr b.genre),
   ("total_copies", vInt b.total_copies),
   ("age_since_publication", vInt (todayYear - b.published_year.y))]

/-- `BookUpdate`: every field optional.  `none` models a field that was
not explicitly supplied (pydantic "unset"); the claims under verification
never exercise an explicit JSON `null`. -/
structure BookUpdate where
  title : Option String := none
  author : Option String := none
  published_year : Option PyDate := none
  genre : Option String := none
  total_copies : Option Int := none
deriving DecidableEq, Repr

/-- `BookUpdate.model_dump(exclude_unset=True)`: exactly the explicitly
supplied fields. -/
def BookUpdate.dump_set (b : BookUpdate) : List (String × Value) :=
  (match b.title with | some t => [("title", vStr t)] | none => []) ++
  (match b.author with | some a => [("author", vStr a)] | none => []) ++
  (match b.published_year with | some p => [("published_year", vDate p)] | none => []) ++
  (match b.genre with | some g => [("genre", vStr g)] | none => []) ++
  (match b.total_copies with | some c => [("total_copies", vInt c)] | none => [])

/-- `BookRead`: identifier plus all `BookBase` fields.  `published_year`
is inherited from `BookBase` and required.  The computed property
`age_since_publication` is derived, not stored. -/
structure BookRead where
  id : String
  title : String
  author : String
  published_year : PyDate
  genre : String
  total_copies : Int
deriving DecidableEq, Repr

/-- The single pydantic error message modelled for a failed `BookRead`
construction (pydantic reports the offending fields; only the fact that a
`ValidationError` is raised matters here). -/
def bookReadErrMsg : String := "validation error for BookRead"

/-- pydantic construction of `BookRead` from keyword arguments: every
required field must be present with its annotated type, and
`total_copies` must pass its `ge=0` constraint and field validator.
pydantic checks all fields and the order of the checks cannot be observed
(any failure raises the one `ValidationError`); `published_year` is
examined first here. -/
def BookRead.validate (kwargs : List (String × Value)) : Except PyErr BookRead :=
  match getField kwargs "published_year" with
  | some (vDate p) =>
    (match getField kwargs "id", getField kwargs "title", getField kwargs "author",
        getField kwargs "genre", getField kwargs "total_copies" with
     | some (vStr i), some (vStr t), some (vStr a), some (vStr g), some (vInt c) =>
       if c < 0 then .error (.validationError bookReadErrMsg)
       else .ok ⟨i, t, a, p, g, c⟩
     | _, _, _, _, _ => .error (.validationError bookReadErrMsg))
  | _ => .error (.validationError bookReadErrMsg)

/-- `UserCreate` (`UserBase` fields plus `password`; `registered_date`
defaults to the creation time and is part of the instance). -/
structure UserCreate where
  first_name : String
  last_name : String
  email : String
  role : String
  registered_date : PyDate
  password : String
deriving DecidableEq, Repr

/-- The `role` field validator of `UserBase`/`UserUpdate`. -/
def roleValid (r : String) : Bool :=
  ["admin", "manager", "user", "viewer"].contains r

/-- `UserCreate.model_dump()`: base fields, `password`, and the computed
field `full_name`. -/
def UserCreate.model_dump (u : UserCreate) : Doc :=
  [("first_name", vStr u.first_name), ("last_name", vStr u.last_name),
   ("email", vStr u.email), ("role", vStr u.role),
   ("registered_date", vDate u.registered_date),
   ("full_name", vStr (u.first_name ++ " " ++ u.last_name)),
   ("password", vStr u.password)]

/-- `UserUpdate`: every field optional, `none` = unset. -/
structure UserUpdate where
  first_name : Option String := none
  last_name : Option String := none
  email : Option String := none
  role : Option String := none
  password : Option String := none
deriving DecidableEq, Repr

/-- `UserUpdate.model_dump(exclude_unset=True)`. -/
def UserUpdate.dump_set (u : UserUpdate) : List (String × Value) :=
  (match u.first_name with | some v => [("first_name", vStr v)] | none => []) ++
  (match u.last_name with | some v => [("last_name", vStr v)] | none => []) ++
  (match u.email with | some v => [("email", vStr v)] | none => []) ++
  (match u.role with | some v => [("role", vStr v)] | none => []) ++
  (match u.password with | some v => [("password", vStr v)] | none => [])

/-- `UserRead`: identifier plus the `UserBase` fields that the claims can
observe.  `registered_date` has a default factory reading the conversion
time clock and `full_name` is computed, so neither carries stored
information through `_document_to_user_read`; real clock time is outside
the embedding and no claim mentions either field. -/
structure UserRead where
  id : String
  first_name : String
  last_name : String
  email : String
  role : String
deriving DecidableEq, Repr

/-- The modelled pydantic error message for a failed `UserRead`
construction. -/
def userReadErrMsg : String := "validation error for UserRead"

/-- pydantic construction of `UserRead` from keyword arguments: required
fields present as strings and `role` passing its field validator. -/
def UserRead.validate (kwargs : List (String × Value)) : Except PyErr UserRead :=
  match getField kwargs "id", getField kwargs "first_name",
      getField kwargs "last_name", getField kwargs "email",
      getField kwargs "role" with
  | some (vStr i), some (vStr f), some (vStr l), some (vStr e), some (vStr r) =>
    if roleValid r then .ok ⟨i, f, l, e, r⟩
    else .error (.validationError userReadErrMsg)
  | _, _, _, _, _ => .error (.validationError userReadErrMsg)

/-! ### `BookRepository` (`src/repositories/book_repository.py`) -/

namespace BookRepository

/-- `_to_object_id`: validate the string, raising `ValueError` on an
invalid format; the `ObjectId` is represented by its hex string. -/
def to_object_id (book_id : String) : Except PyErr String :=
  if isValidObjectId book_id then .ok book_id
  else .error (.valueError ("ID de libro invalido: " ++ book_id))

/-- `_document_to_book_read`: builds `BookRead` from the keyword arguments
`id`, `title`, `author`, `genre`, `total_copies` taken from the document.
No `published_year` keyword is passed. -/
def document_to_book_read (doc : Doc) : Except PyErr BookRead :=
  match doc.item "_id" with
  | .error e => .error e
  | .ok i =>
    match doc.item "title" with
    | .error e => .error e
    | .ok t =>
      match doc.item "author" with
      | .error e => .error e
      | .ok a =>
        match doc.item "genre" with
        | .error e => .error e
        | .ok g =>
          match doc.item "total_copies" with
          | .error e => .error e
          | .ok c =>
            BookRead.validate [("id", i), ("title", t), ("author", a),
              ("genre", g), ("total_copies", c)]

/-- `create_book`: insert the dumped create model, re-read the inserted
document by its assigned identifier (`newId`, the store-generated fresh
id), raise `RuntimeError` if the re-read finds nothing, otherwise convert
the re-read document. -/
def create_book (book_in : BookCreate) (todayYear : Int) (newId : String)
    (col : Collection) : Except PyErr BookRead × Collection :=
  let book_dict := book_in.model_dump todayYear
  let col1 := insert_one col newId book_dict
  match find_one col1 (idQuery newId) with
  | none => (.error (.runtimeError "Error al recuperar el libro recien creado"), col1)
  | some created => (document_to_book_read created, col1)

/-- `get_book_by_id`: `None` when no document matches a valid identifier. -/
def get_book_by_id (book_id : String) (col : Collection) :
    Except PyErr (Option BookRead) :=
  match to_object_id book_id with
  | .error e => .error e
  | .ok oid =>
    match find_one col (idQuery oid) with
    | none => .ok none
    | some doc => (document_to_book_read doc).map some

/-- `list_books`: find with exact-match filters (`filters or \x7b\x7d`), apply
`skip` and `limit`, convert every document. -/
def list_books (skip : Int) (limit : Int) (filters : Option (List (String × Value)))
    (col : Collection) : Except PyErr (List BookRead) :=
  (mongoLimit limit (mongoSkip skip (matchingDocs col (filters.getD [])))).mapM
    document_to_book_read

/-- `update_book`: validate the id, dump the explicitly supplied fields;
on an empty dump re-read and convert without writing; otherwise
`update_one` with a partial `set`, `None` when nothing matched, else
re-read and convert. -/
def update_book (book_id : String) (book_in : BookUpdate) (col : Collection) :
    Except PyErr (Option BookRead) × Collection :=
  match to_object_id book_id with
  | .error e => (.error e, col)
  | .ok oid =>
    let update_data := book_in.dump_set
    if update_data.isEmpty then
      match find_one col (idQuery oid) with
      | some doc => ((document_to_book_read doc).map some, col)
      | none => (.ok none, col)
    else
      let r := update_one col (idQuery oid) update_data
      if r.2 = 0 then (.ok none, r.1)
      else
        match find_one r.1 (idQuery oid) with
        | none => (.ok none, r.1)
        | some updated => ((document_to_book_read updated).map some, r.1)

/-- `delete_book`: `True` exactly when one document was removed. -/
def delete_book (book_id : String) (col : Collection) :
    Except PyErr Bool × Collection :=
  match to_object_id book_id with
  | .error e => (.error e, col)
  | .ok oid =>
    let r := delete_one col (idQuery oid)
    (.ok (r.2 = 1), r.1)

end BookRepository

/-! ### `UserRepository` (`src/repositories/user_repostory.py`) -/

namespace UserRepository

/-- `_to_object_id` for the users collection. -/
def to_object_id (user_id : String) : Except PyErr String :=
  if isValidObjectId user_id then .ok user_id
  else .error (.valueError ("ID de usuario invalido: " ++ user_id))

/-- `_document_to_user_read`: builds `UserRead` from the keyword arguments
`id`, `first_name`, `last_name`, `email`, `role` taken from the document. -/
def document_to_user_read (doc : Doc) : Except PyErr UserRead :=
  match doc.item "_id" with
  | .error e => .error e
  | .ok i =>
    match doc.item "first_name" with
    | .error e => .error e
    | .ok f =>
      match doc.item "last_name" with
      | .error e => .error e
      | .ok l =>
        match doc.item "email" with
        | .error e => .error e
        | .ok em =>
          match doc.item "role" with
          | .error e => .error e
          | .ok r =>
            UserRead.validate [("id", i), ("first_name", f), ("last_name", l),
              ("email", em), ("role", r)]

/-- `create_user`: insert the dumped create model, re-read by the assigned
identifier, raise `RuntimeError` if the re-read finds nothing, convert. -/
def create_user (user_in : UserCreate) (newId : String) (col : Collection) :
    Except PyErr UserRead × Collection :=
  let user_dict := user_in.model_dump
  let col1 := insert_one col newId user_dict
  match find_one col1 (idQuery newId) with
  | none => (.error (.runtimeError "Error al recuperar el usuario recien creado"), col1)
  | some created => (document_to_user_read created, col1)

/-- `get_user_by_id`. -/
def get_user_by_id (user_id : String) (col : Collection) :
    Except PyErr (Option UserRead) :=
  match to_object_id user_id with
  | .error e => .error e
  | .ok oid =>
    match find_one col (idQuery oid) with
    | none => .ok none
    | some doc => (document_to_user_read doc).map some

/-- `get_user_by_email`: exact-match lookup on the `email` field. -/
def get_user_by_email (email : String) (col : Collection) :
    Except PyErr (Option UserRead) :=
  match find_one col [("email", vStr email)] with
  | none => .ok none
  | some doc => (document_to_user_read doc).map some

/-- `list_users`: find with exact-match filters, skip, limit, convert. -/
def list_users (skip : Int) (limit : Int) (filters : Option (List (String × Value)))
    (col : Collection) : Except PyErr (List UserRead) :=
  (mongoLimit limit (mongoSkip skip (matchingDocs col (filters.getD [])))).mapM
    document_to_user_read

/-- `update_user`: same shape as `BookRepository.update_book`. -/
def update_user (user_id : String) (user_in : UserUpdate) (col : Collection) :
    Except PyErr (Option UserRead) × Collection :=
  match to_object_id user_id with
  | .error e => (.error e, col)
  | .ok oid =>
    let update_data := user_in.dump_set
    if update_data.isEmpty then
      match find_one col (idQuery oid) with
      | some doc => ((document_to_user_read doc).map some, col)
      | none => (.ok none, col)
    else
      let r := update_one col (idQuery oid) update_data
      if r.2 = 0 then (.ok none, r.1)
      else
        match find_one r.1 (idQuery oid) with
        | none => (.ok none, r.1)
        | some updated => ((document_to_user_read updated).map some, r.1)

/-- `delete_user`. -/
def delete_user (user_id : String) (col : Collection) :
    Except PyErr Bool × Collection :=
  match to_object_id user_id with
  | .error e => (.error e, col)
  | .ok oid =>
    let r := delete_one col (idQuery oid)
    (.ok (r.2 = 1), r.1)

end UserRepository

/-! ### `BookService` (`src/services/book_service.py`) -/

namespace BookService

/-- `_ensure_not_duplicate_on_create`: query one existing document with
exactly the same `title` and `author`; any match is a 409 conflict. -/
def ensure_not_duplicate_on_create (book_in : BookCreate) (col : Collection) :
    Except PyErr Unit :=
  let filters := [("title", vStr book_in.title), ("author", vStr book_in.author)]
  match BookRepository.list_books 0 1 (some filters) col with
  | .error e => .error e
  | .ok existing =>
    if existing.isEmpty then .ok ()
    else .error (.httpException 409
      "Ya existe un libro con los mismos datos (posible duplicado).")

/-- `_ensure_book_exists`: translate the repository's `ValueError` into a
422 and an absent result into a 404. -/
def ensure_book_exists (book_id : String) (col : Collection) :
    Except PyErr BookRead :=
  match BookRepository.get_book_by_id book_id col with
  | .error (.valueError m) => .error (.httpException 422 m)
  | .error e => .error e
  | .ok none => .error (.httpException 404 "Libro no encontrado.")
  | .ok (some book) => .ok book

/-- `create_book`: duplicate check, then repository create with
`RuntimeError` surfaced as a 500. -/
def create_book (book_in : BookCreate) (todayYear : Int) (newId : String)
    (col : Collection) : Except PyErr BookRead × Collection :=
  match ensure_not_duplicate_on_create book_in col with
  | .error e => (.error e, col)
  | .ok _ =>
    match BookRepository.create_book book_in todayYear newId col with
    | (.error (.runtimeError m), col1) => (.error (.httpException 500 m), col1)
    | (r, col1) => (r, col1)

/-- `get_book_by_id` (service). -/
def get_book_by_id (book_id : String) (col : Collection) : Except PyErr BookRead :=
  ensure_book_exists book_id col

/-- `list_books` (service): reject `limit > 200` with a 422 before any
repository call, else delegate. -/
def list_books (skip : Int) (limit : Int) (filters : Option (List (String × Value)))
    (col : Collection) : Except PyErr (List BookRead) :=
  if limit > 200 then
    .error (.httpException 422 "El parametro limit no puede ser mayor a 200.")
  else BookRepository.list_books skip limit filters col

/-- `update_book` (service): existence check, empty-update no-op returning
the current book, else repository update with `ValueError` as 422 and an
absent result as 404. -/
def update_book (book_id : String) (book_in : BookUpdate) (col : Collection) :
    Except PyErr BookRead × Collection :=
  match ensure_book_exists book_id col with
  | .error e => (.error e, col)
  | .ok _ =>
    let update_data := book_in.dump_set
    if update_data.isEmpty then
      (ensure_book_exists book_id col, col)
    else
      match BookRepository.update_book book_id book_in col with
      | (.error (.valueError m), col1) => (.error (.httpException 422 m), col1)
      | (.error e, col1) => (.error e, col1)
      | (.ok none, col1) => (.error (.httpException 404 "Libro no encontrado."), col1)
      | (.ok (some updated), col1) => (.ok updated, col1)

/-- `delete_book` (service): existence check, then repository delete with
`ValueError` as 422 and `False` as 404. -/
def delete_book (book_id : String) (col : Collection) :
    Except PyErr Unit × Collection :=
  match ensure_book_exists book_id col with
  | .error e => (.error e, col)
  | .ok _ =>
    match BookRepository.delete_book book_id col with
    | (.error (.valueError m), col1) => (.error (.httpException 422 m), col1)
    | (.error e, col1) => (.error e, col1)
    | (.ok deleted, col1) =>
      if deleted then (.ok (), col1)
      else (.error (.httpException 404 "Libro no encontrado."), col1)

end BookService

/-! ### `UserService` (`src/services/user_service.py`) -/

namespace UserService

/-- `_ensure_not_duplicated_on_create`: dedicated lookup by the normalized
e-mail; a hit is a 409 conflict. -/
def ensure_not_duplicated_on_create (user_in : UserCreate) (col : Collection) :
    Except PyErr Unit :=
  let email := normalize_str user_in.email
  match UserRepository.get_user_by_email email col with
  | .error e => .error e
  | .ok (some _) => .error (.httpException 409 "Ya existe un usuario con ese email.")
  | .ok none => .ok ()

/-- `_ensure_user_exists`. -/
def ensure_user_exists (user_id : String) (col : Collection) :
    Except PyErr UserRead :=
  match UserRepository.get_user_by_id user_id col with
  | .error (.valueError m) => .error (.httpException 422 m)
  | .error e => .error e
  | .ok none => .error (.httpException 404 "Usuario no encontrado.")
  | .ok (some user) => .ok user

/-- `_ensure_not_duplicated_on_update`: when the e-mail is among the
supplied fields, its normalized value must not belong to a different
user. -/
def ensure_not_duplicated_on_update (user_id : String) (user_in : UserUpdate)
    (col : Collection) : Except PyErr Unit :=
  match getField user_in.dump_set "email" with
  | some (vStr e) =>
    (match UserRepository.get_user_by_email (normalize_str e) col with
     | .error err => .error err
     | .ok (some existing) =>
       if existing.id ≠ user_id then
         .error (.httpException 409 "El email ya esta en uso por otro usuario.")
       else .ok ()
     | .ok none => .ok ())
  | _ => .ok ()

/-- `create_user`: normalize the e-mail (the pydantic v2 model is mutable,
so the in-place assignment succeeds), run the duplicate check, then the
repository create with `RuntimeError` surfaced as a 500. -/
def create_user (user_in : UserCreate) (newId : String) (col : Collection) :
    Except PyErr UserRead × Collection :=
  let normalized := { user_in with email := normalize_str user_in.email }
  match ensure_not_duplicated_on_create normalized col with
  | .error e => (.error e, col)
  | .ok _ =>
    match UserRepository.create_user normalized newId col with
    | (.error (.runtimeError m), col1) => (.error (.httpException 500 m), col1)
    | (r, col1) => (r, col1)

/-- `get_user_by_id` (service). -/
def get_user_by_id (user_id : String) (col : Collection) : Except PyErr UserRead :=
  ensure_user_exists user_id col

/-- `get_user_by_email` (service): lookup by normalized e-mail, absent
surfaced as 404. -/
def get_user_by_email (email : String) (col : Collection) : Except PyErr UserRead :=
  match UserRepository.get_user_by_email (normalize_str email) col with
  | .error e => .error e
  | .ok none => .error (.httpException 404 "Usuario no encontrado.")
  | .ok (some user) => .ok user

/-- The e-mail filter normalization performed by `list_users` on a truthy
filter mapping containing a string `email`. -/
def normalize_filters (filters : Option (List (String × Value))) :
    Option (List (String × Value)) :=
  match filters with
  | none => none
  | some fs =>
    if fs.isEmpty then some fs
    else
      match getField fs "email" with
      | some (vStr e) => some (setField fs "email" (vStr (normalize_str e)))
      | _ => some fs

/-- `list_users` (service): reject `limit > 200` with a 422 before any
repository call, normalize an e-mail filter, delegate. -/
def list_users (skip : Int) (limit : Int) (filters : Option (List (String × Value)))
    (col : Collection) : Except PyErr (List UserRead) :=
  if limit > 200 then
    .error (.httpException 422 "El parametro limit no puede ser mayor a 200.")
  else UserRepository.list_users skip limit (normalize_filters filters) col

/-- `update_user` (service): existence check, empty-update no-op, e-mail
normalization (in-place model mutation), update-time duplicate check, then
repository update with `ValueError` as 422 and an absent result as 404. -/
def update_user (user_id : String) (user_in : UserUpdate) (col : Collection) :
    Except PyErr UserRead × Collection :=
  match ensure_user_exists user_id col with
  | .error e => (.error e, col)
  | .ok _ =>
    let update_data := user_in.dump_set
    if update_data.isEmpty then
      (ensure_user_exists user_id col, col)
    else
      let normalized :=
        match getField update_data "email" with
        | some (vStr e) => { user_in with email := some (normalize_str e) }
        | _ => user_in
      match ensure_not_duplicated_on_update user_id normalized col with
      | .error e => (.error e, col)
      | .ok _ =>
        match UserRepository.update_user user_id normalized col with
        | (.error (.valueError m), col1) => (.error (.httpException 422 m), col1)
        | (.error e, col1) => (.error e, col1)
        | (.ok none, col1) => (.error (.httpException 404 "Usuario no encontrado."), col1)
        | (.ok (some updated), col1) => (.ok updated, col1)

/-- `delete_user` (service). -/
def delete_user (user_id : String) (col : Collection) :
    Except PyErr Unit × Collection :=
  match ensure_user_exists user_id col with
  | .error e => (.error e, col)
  | .ok _ =>
    match UserRepository.delete_user user_id col with
    | (.error (.valueError m), col1) => (.error (.httpException 422 m), col1)
    | (.error e, col1) => (.error e, col1)
    | (.ok deleted, col1) =>
      if deleted then (.ok (), col1)
      else (.error (.httpException 404 "Usuario no encontrado."), col1)

end UserService

/-! ### Well-formedness of stored book documents and concrete fixtures -/

/-- The fields a stored book document carries into
`_document_to_book_read` (every document inserted by the repository has
them). -/
def bookDocFields (d : Doc) : Bool :=
  (getField d "_id").isSome && (getField d "title").isSome &&
  (getField d "author").isSome && (getField d "genre").isSome &&
  (getField d "total_copies").isSome

/-- Fixture: a syntactically valid store identifier. -/
def fixId1 : String := "aaaaaaaaaaaaaaaaaaaaaaaa"

/-- Fixture: a second, distinct valid identifier. -/
def fixId2 : String := "bbbbbbbbbbbbbbbbbbbbbbbb"

/-- Fixture: a third valid identifier. -/
def fixId3 : String := "cccccccccccccccccccccccc"

/-- Fixture: the sample book payload of `tests/test_books.py`, completed
with the `published_year` that `BookCreate` requires. -/
def fixBook : BookCreate :=
  ⟨"Clean Architecture", "Robert C. Martin", ⟨2017, 9, 20⟩, "Software", 5⟩

/-- Fixture: a second book with different title and author. -/
def fixBook2 : BookCreate :=
  ⟨"Refactoring", "Martin Fowler", ⟨2018, 11, 19⟩, "Software", 3⟩

/-- Fixture: the stored document of `fixBook` under `fixId1`. -/
def fixBookDoc : Doc := setField (fixBook.model_dump 2026) "_id" (vStr fixId1)

/-- Fixture: the stored document of `fixBook2` under `fixId2`. -/
def fixBookDoc2 : Doc := setField (fixBook2.model_dump 2026) "_id" (vStr fixId2)

/-- Fixture: a user create payload. -/
def fixUser : UserCreate :=
  ⟨"Ada", "Lovelace", "ada@test.com", "admin", ⟨2024, 1, 1⟩, "secret123"⟩

/-- Fixture: a second user. -/
def fixUser2 : UserCreate :=
  ⟨"Grace", "Hopper", "grace@test.com", "user", ⟨2024, 2, 2⟩, "secret456"⟩

/-- Fixture: a third user. -/
def fixUser3 : UserCreate :=
  ⟨"Alan", "Turing", "alan@test.com", "admin", ⟨2024, 3, 3⟩, "secret789"⟩

/-- Fixture: stored user documents under the three identifiers. -/
def fixUserDoc : Doc := setField fixUser.model_dump "_id" (vStr fixId1)

/-- Fixture: second stored user document. -/
def fixUserDoc2 : Doc := setField fixUser2.model_dump "_id" (vStr fixId2)

/-- Fixture: third stored user document. -/
def fixUserDoc3 : Doc := setField fixUser3.model_dump "_id" (vStr fixId3)

/-- Fixture: an update model with no explicitly supplied field. -/
def fixEmptyBookUpdate : BookUpdate := {}

/-- Fixture: an empty user update model. -/
def fixEmptyUserUpdate : UserUpdate := {}

/-- Equality of `Except` results is decidable componentwise (used to
evaluate the embedding at concrete inputs). -/
instance {e a : Type} [DecidableEq e] [DecidableEq a] : DecidableEq (Except e a) :=
  fun x y =>
    match x, y with
    | .error e1, .error e2 =>
      if h : e1 = e2 then .isTrue (congrArg Except.error h)
      else .isFalse (fun hh => h (Except.error.inj hh))
    | .ok a1, .ok a2 =>
      if h : a1 = a2 then .isTrue (congrArg Except.ok h)
      else .isFalse (fun hh => h (Except.ok.inj hh))
    | .error _, .ok _ => .isFalse (fun hh => Except.noConfusion hh)
    | .ok _, .error _ => .isFalse (fun hh => Except.noConfusion hh)

/-! ### Helper lemmas -/

theorem toNat_charOfNat_of_lt (n : Nat) (h : n < 55296) : (Char.ofNat n).toNat = n := by
  have hv : Nat.isValidChar n := Or.inl h
  unfold Char.ofNat
  rw [dif_pos hv]
  rfl

theorem pyCharLower_idem (c : Char) : pyCharLower (pyCharLower c) = pyCharLower c := by
  by_cases h : (decide (65 ≤ c.toNat) && decide (c.toNat ≤ 90)) = true
  · have hb : 65 ≤ c.toNat ∧ c.toNat ≤ 90 := by simpa using h
    have ht : (Char.ofNat (c.toNat + 32)).toNat = c.toNat + 32 :=
      toNat_charOfNat_of_lt _ (by omega)
    have h2 : (decide (65 ≤ (Char.ofNat (c.toNat + 32)).toNat) &&
        decide ((Char.ofNat (c.toNat + 32)).toNat ≤ 90)) = false := by
      rw [ht]
      simp only [Bool.and_eq_false_iff, decide_eq_false_iff_not]
      omega
    show pyCharLower (if _ then _ else _) = _
    rw [if_pos h]
    unfold pyCharLower
    rw [if_pos h, if_neg (by simp [h2])]
  · have e : pyCharLower c = c := by
      unfold pyCharLower
      rw [if_neg (by simp [h])]
    rw [e]
    exact e

theorem pyIsSpace_pyCharLower (c : Char) : pyIsSpace (pyCharLower c) = pyIsSpace c := by
  by_cases h : (decide (65 ≤ c.toNat) && decide (c.toNat ≤ 90)) = true
  · have hb : 65 ≤ c.toNat ∧ c.toNat ≤ 90 := by simpa using h
    have ht : (Char.ofNat (c.toNat + 32)).toNat = c.toNat + 32 :=
      toNat_charOfNat_of_lt _ (by omega)
    unfold pyCharLower
    rw [if_pos h]
    unfold pyIsSpace
    rw [ht]
    have h1 : (decide (c.toNat + 32 = 32) : Bool) = false := by
      rw [decide_eq_false_iff_not]; omega
    have h2 : (decide (9 ≤ c.toNat + 32) && decide (c.toNat + 32 ≤ 13)) = false := by
      simp only [Bool.and_eq_false_iff, decide_eq_false_iff_not]; omega
    have h3 : (decide (c.toNat = 32) : Bool) = false := by
      rw [decide_eq_false_iff_not]; omega
    have h4 : (decide (9 ≤ c.toNat) && decide (c.toNat ≤ 13)) = false := by
      simp only [Bool.and_eq_false_iff, decide_eq_false_iff_not]; omega
    rw [h1, h2, h3, h4]
  · unfold pyCharLower
    rw [if_neg (by simp [h])]

theorem dropWhile_map_comm (f : Char → Char) (p : Char → Bool)
    (hp : ∀ x, p (f x) = p x) (xs : List Char) :
    (xs.map f).dropWhile p = (xs.dropWhile p).map f := by
  induction xs with
  | nil => rfl
  | cons x xs ih =>
    by_cases h : p x = true
    · simp [List.dropWhile_cons, h, hp, ih]
    · simp only [Bool.not_eq_true] at h
      simp [List.dropWhile_cons, h, hp]

theorem dropWhile_idem (p : Char → Bool) (xs : List Char) :
    (xs.dropWhile p).dropWhile p = xs.dropWhile p := by
  induction xs with
  | nil => rfl
  | cons x xs ih =>
    by_cases h : p x = true
    · simp [List.dropWhile_cons, h, ih]
    · simp only [Bool.not_eq_true] at h
      simp [List.dropWhile_cons, h]

theorem head?_dropWhile (p : Char → Bool) (xs : List Char) (y : Char)
    (h : (xs.dropWhile p).head? = some y) : p y = false := by
  induction xs with
  | nil => simp at h
  | cons x xs ih =>
    by_cases hx : p x = true
    · rw [List.dropWhile_cons, if_pos hx] at h
      exact ih h
    · simp only [Bool.not_eq_true] at hx
      rw [List.dropWhile_cons, if_neg (by simp [hx])] at h
      simp only [List.head?_cons, Option.some.injEq] at h
      exact h ▸ hx

theorem dropWhile_eq_self_of_head? (p : Char → Bool) (xs : List Char)
    (h : ∀ y, xs.head? = some y → p y = false) : xs.dropWhile p = xs := by
  cases xs with
  | nil => rfl
  | cons x xs =>
    have := h x (by simp)
    rw [List.dropWhile_cons, if_neg (by simp [this])]

theorem rtrimChars_prefix (p : Char → Bool) (xs : List Char) :
    xs = (xs.reverse.dropWhile p).reverse ++ (xs.reverse.takeWhile p).reverse := by
  have h := List.takeWhile_append_dropWhile (p := p) (l := xs.reverse)
  calc xs = xs.reverse.reverse := by rw [List.reverse_reverse]
    _ = (xs.reverse.takeWhile p ++ xs.reverse.dropWhile p).reverse := by rw [h]
    _ = (xs.reverse.dropWhile p).reverse ++ (xs.reverse.takeWhile p).reverse := by
        rw [List.reverse_append]

theorem stripChars_idem (xs : List Char) : stripChars (stripChars xs) = stripChars xs := by
  unfold stripChars
  set p := pyIsSpace with hp
  set C := xs.dropWhile p with hC
  set R := (C.reverse.dropWhile p).reverse with hR
  have hdropR : R.dropWhile p = R := by
    apply dropWhile_eq_self_of_head?
    intro y hy
    have hpre := rtrimChars_prefix p C
    rw [← hR] at hpre
    have hheadC : C.head? = some y := by
      cases hR2 : R with
      | nil => rw [hR2] at hy; simp at hy
      | cons a t =>
        rw [hR2] at hy
        simp only [List.head?_cons, Option.some.injEq] at hy
        rw [hpre, hR2, hy]
        simp
    have : (xs.dropWhile p).head? = some y := by rw [← hC]; exact hheadC
    exact head?_dropWhile p xs y this
  rw [hdropR]
  rw [List.reverse_reverse, dropWhile_idem]

theorem stripChars_map_lower (xs : List Char) :
    stripChars (xs.map pyCharLower) = (stripChars xs).map pyCharLower := by
  unfold stripChars
  rw [dropWhile_map_comm pyCharLower pyIsSpace pyIsSpace_pyCharLower,
    ← List.map_reverse, dropWhile_map_comm pyCharLower pyIsSpace pyIsSpace_pyCharLower,
    List.map_reverse]

theorem normalize_str_idem (s : String) :
    normalize_str (normalize_str s) = normalize_str s := by
  unfold normalize_str pyLower pyStrip
  apply congrArg String.mk
  show (stripChars ((stripChars s.data).map pyCharLower)).map pyCharLower
      = ((stripChars s.data).map pyCharLower : List Char)
  rw [stripChars_map_lower, stripChars_idem, List.map_map,
    show pyCharLower ∘ pyCharLower = pyCharLower from funext pyCharLower_idem]

theorem getField_setField_self (d : Doc) (k : String) (v : Value) :
    getField (setField d k v) k = some v := by
  induction d with
  | nil => simp [setField, getField]
  | cons kv rest ih =>
    by_cases h : kv.1 = k
    · simp [setField, h, getField]
    · simp [setField, h, getField, ih]

theorem getField_setField_ne (d : Doc) (k k' : String) (v : Value) (h : k' ≠ k) :
    getField (setField d k v) k' = getField d k' := by
  induction d with
  | nil =>
    show getField [(k, v)] k' = getField [] k'
    simp only [getField]
    rw [if_neg (fun hh => h hh.symm)]
  | cons kv rest ih =>
    by_cases hk : kv.1 = k
    · simp only [setField, hk, if_true]
      rw [getField, getField, if_neg (fun hh => h hh.symm), hk,
        if_neg (fun hh => h hh.symm)]
    · simp only [setField, hk, if_false]
      rw [getField, getField]
      by_cases hk' : kv.1 = k'
      · simp [hk']
      · simp [hk', ih]

theorem getField_setFields_not_mem (u : List (String × Value)) (d : Doc) (k : String)
    (h : k ∉ u.map Prod.fst) : getField (setFields d u) k = getField d k := by
  induction u generalizing d with
  | nil => rfl
  | cons kv rest ih =>
    simp only [List.map_cons, List.mem_cons, not_or] at h
    show getField (setFields (setField d kv.1 kv.2) rest) k = getField d k
    rw [ih _ h.2, getField_setField_ne _ _ _ _ h.1]

theorem getField_setFields_mem (u : List (String × Value)) (d : Doc) (k : String) (v : Value)
    (hnd : (u.map Prod.fst).Nodup) (h : (k, v) ∈ u) :
    getField (setFields d u) k = some v := by
  induction u generalizing d with
  | nil => simp at h
  | cons kv rest ih =>
    simp only [List.map_cons, List.nodup_cons] at hnd
    rcases List.mem_cons.mp h with h1 | h2
    · show getField (setFields (setField d kv.1 kv.2) rest) k = some v
      have hk : k ∉ rest.map Prod.fst := by
        rw [← h1] at hnd
        exact hnd.1
      rw [getField_setFields_not_mem rest _ k hk, ← h1, getField_setField_self]
    · exact ih _ hnd.2 h2

theorem getField_setFields_isSome (u : List (String × Value)) (d : Doc) (k : String)
    (h : (getField d k).isSome = true) : (getField (setFields d u) k).isSome = true := by
  induction u generalizing d with
  | nil => exact h
  | cons kv rest ih =>
    show (getField (setFields (setField d kv.1 kv.2) rest) k).isSome = true
    apply ih
    by_cases hk : k = kv.1
    · rw [hk, getField_setField_self]
      rfl
    · rw [getField_setField_ne _ _ _ _ hk]
      exact h

theorem find_one_decomp (col : Collection) (q : List (String × Value)) (d : Doc)
    (h : find_one col q = some d) :
    ∃ pre post, col = pre ++ d :: post ∧
      (∀ e ∈ pre, docMatches e q = false) ∧ docMatches d q = true := by
  induction col with
  | nil => simp [find_one] at h
  | cons x rest ih =>
    by_cases hx : docMatches x q = true
    · rw [find_one, @List.find?_cons_of_pos _ (fun e => docMatches e q) x rest hx] at h
      injection h with h1
      subst h1
      exact ⟨[], rest, rfl, by simp, hx⟩
    · rw [find_one,
        @List.find?_cons_of_neg _ (fun e => docMatches e q) x rest (by simp [hx])] at h
      obtain ⟨pre, post, h1, h2, h3⟩ := ih h
      refine ⟨x :: pre, post, by rw [h1]; rfl, ?_, h3⟩
      intro e he
      rcases List.mem_cons.mp he with he1 | he2
      · rw [he1]
        exact Bool.not_eq_true _ ▸ hx
      · exact h2 e he2

theorem find_one_of_decomp (pre post : Collection) (q : List (String × Value)) (d : Doc)
    (hpre : ∀ e ∈ pre, docMatches e q = false) (hd : docMatches d q = true) :
    find_one (pre ++ d :: post) q = some d := by
  induction pre with
  | nil =>
    rw [List.nil_append, find_one]
    exact @List.find?_cons_of_pos _ (fun e => docMatches e q) d post hd
  | cons x rest ih =>
    have hx : docMatches x q = false := hpre x (by simp)
    rw [find_one, List.cons_append,
      @List.find?_cons_of_neg _ (fun e => docMatches e q) x _ (by simp [hx])]
    exact ih (fun e he => hpre e (List.mem_cons_of_mem _ he))

theorem find_one_append_left_none (col col2 : Collection) (q : List (String × Value))
    (h : find_one col q = none) :
    find_one (col ++ col2) q = find_one col2 q := by
  unfold find_one at h ⊢
  rw [List.find?_append, h]
  rfl

theorem update_one_spec (pre post : Collection) (q u : List (String × Value)) (d : Doc)
    (hpre : ∀ e ∈ pre, docMatches e q = false) (hd : docMatches d q = true) :
    update_one (pre ++ d :: post) q u = (pre ++ setFields d u :: post, 1) := by
  induction pre with
  | nil => simp [update_one, hd]
  | cons x rest ih =>
    have hx : docMatches x q = false := hpre x (by simp)
    rw [List.cons_append, update_one]
    rw [if_neg (by simp [hx])]
    rw [ih (fun e he => hpre e (List.mem_cons_of_mem _ he))]
    rfl

theorem mapM_cons_error {α β : Type} (f : α → Except PyErr β) (a : α) (l : List α)
    (e : PyErr) (h : f a = .error e) : (a :: l).mapM f = .error e := by
  rw [List.mapM_cons, h]
  rfl

theorem bookUpdate_keys_sublist (u : BookUpdate) :
    (u.dump_set.map Prod.fst).Sublist
      ["title", "author", "published_year", "genre", "total_copies"] := by
  rcases u with ⟨t, a, p, g, c⟩
  cases t <;> cases a <;> cases p <;> cases g <;> cases c <;>
    simp [BookUpdate.dump_set] <;> decide

theorem userUpdate_keys_sublist (u : UserUpdate) :
    (u.dump_set.map Prod.fst).Sublist
      ["first_name", "last_name", "email", "role", "password"] := by
  rcases u with ⟨f, l, e, r, p⟩
  cases f <;> cases l <;> cases e <;> cases r <;> cases p <;>
    simp [UserUpdate.dump_set] <;> decide

theorem bookUpdate_keys_nodup (u : BookUpdate) : (u.dump_set.map Prod.fst).Nodup :=
  (bookUpdate_keys_sublist u).nodup (by decide)

theorem userUpdate_keys_nodup (u : UserUpdate) : (u.dump_set.map Prod.fst).Nodup :=
  (userUpdate_keys_sublist u).nodup (by decide)

theorem bookUpdate_id_not_key (u : BookUpdate) : "_id" ∉ u.dump_set.map Prod.fst := by
  intro hmem
  have := (bookUpdate_keys_sublist u).subset hmem
  simp at this

theorem userUpdate_id_not_key (u : UserUpdate) : "_id" ∉ u.dump_set.map Prod.fst := by
  intro hmem
  have := (userUpdate_keys_sublist u).subset hmem
  simp at this

theorem document_to_book_read_error (d : Doc) (h : bookDocFields d = true) :
    BookRepository.document_to_book_read d = .error (.validationError bookReadErrMsg) := by
  unfold bookDocFields at h
  simp only [Bool.and_eq_true, Option.isSome_iff_exists] at h
  obtain ⟨⟨⟨⟨⟨vi, hvi⟩, ⟨vt, hvt⟩⟩, ⟨va, hva⟩⟩, ⟨vg, hvg⟩⟩, ⟨vc, hvc⟩⟩ := h
  unfold BookRepository.document_to_book_read
  simp only [Doc.item, hvi, hvt, hva, hvg, hvc]
  rfl

theorem book_dump_doc_fields (b : BookCreate) (yr : Int) (oid : String) :
    bookDocFields (setField (b.model_dump yr) "_id" (vStr oid)) = true := rfl

theorem inserted_doc_matches_id (d : Doc) (oid : String) :
    docMatches (setField d "_id" (vStr oid)) (idQuery oid) = true := by
  simp [docMatches, idQuery, getField_setField_self]

theorem find_one_insert_fresh (col : Collection) (oid : String) (d : Doc)
    (hfresh : find_one col (idQuery oid) = none) :
    find_one (insert_one col oid d) (idQuery oid)
      = some (setField d "_id" (vStr oid)) := by
  unfold insert_one
  rw [find_one_append_left_none _ _ _ hfresh]
  have := find_one_of_decomp [] [] (idQuery oid) (setField d "_id" (vStr oid))
    (by simp) (inserted_doc_matches_id d oid)
  simpa using this

theorem create_book_validation_error (b : BookCreate) (yr : Int) (newId : String)
    (col : Collection) (hfresh : find_one col (idQuery newId) = none) :
    BookRepository.create_book b yr newId col
      = (.error (.validationError bookReadErrMsg), insert_one col newId (b.model_dump yr)) := by
  simp only [BookRepository.create_book]
  rw [find_one_insert_fresh col newId _ hfresh]
  show (BookRepository.document_to_book_read (setField (b.model_dump yr) "_id" (vStr newId)),
      insert_one col newId (b.model_dump yr)) = _
  rw [document_to_book_read_error _ (book_dump_doc_fields b yr newId)]

theorem get_book_by_id_validation_error (bid : String) (col : Collection) (d : Doc)
    (hv : isValidObjectId bid = true) (hf : find_one col (idQuery bid) = some d)
    (hd : bookDocFields d = true) :
    BookRepository.get_book_by_id bid col = .error (.validationError bookReadErrMsg) := by
  unfold BookRepository.get_book_by_id BookRepository.to_object_id
  rw [if_pos hv]
  show (match find_one col (idQuery bid) with
    | none => Except.ok none
    | some doc => Except.map some (BookRepository.document_to_book_read doc)) = _
  rw [hf]
  show Except.map some (BookRepository.document_to_book_read d) = _
  rw [document_to_book_read_error d hd]
  rfl

theorem list_books_validation_error (skip limit : Int)
    (filters : Option (List (String × Value))) (col : Collection) (d : Doc)
    (rest : List Doc)
    (hpage : mongoLimit limit (mongoSkip skip (matchingDocs col (filters.getD []))) = d :: rest)
    (hd : bookDocFields d = true) :
    BookRepository.list_books skip limit filters col
      = .error (.validationError bookReadErrMsg) := by
  unfold BookRepository.list_books
  rw [hpage]
  exact mapM_cons_error _ _ _ _ (document_to_book_read_error d hd)

theorem bookDocFields_setFields (d : Doc) (u : List (String × Value))
    (h : bookDocFields d = true) : bookDocFields (setFields d u) = true := by
  unfold bookDocFields at h ⊢
  simp only [Bool.and_eq_true] at h ⊢
  obtain ⟨⟨⟨⟨h1, h2⟩, h3⟩, h4⟩, h5⟩ := h
  exact ⟨⟨⟨⟨getField_setFields_isSome u d _ h1, getField_setFields_isSome u d _ h2⟩,
    getField_setFields_isSome u d _ h3⟩, getField_setFields_isSome u d _ h4⟩,
    getField_setFields_isSome u d _ h5⟩

theorem dump_set_nonempty_isEmpty_false {α : Type} (l : List α) (h : l ≠ []) :
    l.isEmpty = false := by
  cases h0 : l with
  | nil => exact absurd h0 h
  | cons a t => rfl

theorem update_book_validation_error (bid : String) (bu : BookUpdate)
    (pre post : Collection) (d : Doc)
    (hv : isValidObjectId bid = true) (hne : bu.dump_set ≠ [])
    (hpre : ∀ e ∈ pre, docMatches e (idQuery bid) = false)
    (hd : docMatches d (idQuery bid) = true) (hflds : bookDocFields d = true) :
    BookRepository.update_book bid bu (pre ++ d :: post)
      = (.error (.validationError bookReadErrMsg),
         pre ++ setFields d bu.dump_set :: post) := by
  have hemp : bu.dump_set.isEmpty = false := dump_set_nonempty_isEmpty_false _ hne
  have h_id : getField d "_id" = some (vStr bid) := by
    simpa [docMatches, idQuery] using hd
  have hm2 : docMatches (setFields d bu.dump_set) (idQuery bid) = true := by
    simp [docMatches, idQuery,
      getField_setFields_not_mem _ _ _ (bookUpdate_id_not_key bu), h_id]
  have hfind2 := find_one_of_decomp pre post (idQuery bid) (setFields d bu.dump_set)
    hpre hm2
  have hconv := document_to_book_read_error _ (bookDocFields_setFields d bu.dump_set hflds)
  simp only [BookRepository.update_book, BookRepository.to_object_id, hv, if_true, hemp,
    Bool.false_eq_true, if_false,
    update_one_spec pre post (idQuery bid) bu.dump_set d hpre hd, hfind2, hconv,
    Except.map]
  rw [if_neg Nat.one_ne_zero]

theorem update_user_store_shape (uid : String) (uu : UserUpdate)
    (pre post : Collection) (d : Doc)
    (hv : isValidObjectId uid = true) (hne : uu.dump_set ≠ [])
    (hpre : ∀ e ∈ pre, docMatches e (idQuery uid) = false)
    (hd : docMatches d (idQuery uid) = true) :
    (UserRepository.update_user uid uu (pre ++ d :: post)).2
      = pre ++ setFields d uu.dump_set :: post := by
  have hemp : uu.dump_set.isEmpty = false := dump_set_nonempty_isEmpty_false _ hne
  simp only [UserRepository.update_user, UserRepository.to_object_id, hv, if_true, hemp,
    Bool.false_eq_true, if_false,
    update_one_spec pre post (idQuery uid) uu.dump_set d hpre hd]
  cases hf2 : find_one (pre ++ setFields d uu.dump_set :: post) (idQuery uid) with
  | none => rfl
  | some w => rfl

theorem update_book_store_shape (bid : String) (bu : BookUpdate)
    (pre post : Collection) (d : Doc)
    (hv : isValidObjectId bid = true) (hne : bu.dump_set ≠ [])
    (hpre : ∀ e ∈ pre, docMatches e (idQuery bid) = false)
    (hd : docMatches d (idQuery bid) = true) :
    (BookRepository.update_book bid bu (pre ++ d :: post)).2
      = pre ++ setFields d bu.dump_set :: post := by
  have hemp : bu.dump_set.isEmpty = false := dump_set_nonempty_isEmpty_false _ hne
  simp only [BookRepository.update_book, BookRepository.to_object_id, hv, if_true, hemp,
    Bool.false_eq_true, if_false,
    update_one_spec pre post (idQuery bid) bu.dump_set d hpre hd]
  cases hf2 : find_one (pre ++ setFields d bu.dump_set :: post) (idQuery bid) with
  | none => rfl
  | some w => rfl

theorem ensure_book_exists_invalid (s : String) (col : Collection)
    (h : isValidObjectId s = false) :
    BookService.ensure_book_exists s col
      = .error (.httpException 422 ("ID de libro invalido: " ++ s)) := by
  have hrepo : BookRepository.get_book_by_id s col
      = .error (.valueError ("ID de libro invalido: " ++ s)) := by
    unfold BookRepository.get_book_by_id BookRepository.to_object_id
    rw [if_neg (by simp [h])]
  unfold BookService.ensure_book_exists
  rw [hrepo]

theorem ensure_book_exists_missing (s : String) (col : Collection)
    (hv : isValidObjectId s = true) (hf : find_one col (idQuery s) = none) :
    BookService.ensure_book_exists s col
      = .error (.httpException 404 "Libro no encontrado.") := by
  have hrepo : BookRepository.get_book_by_id s col = .ok none := by
    unfold BookRepository.get_book_by_id BookRepository.to_object_id
    rw [if_pos hv]
    show (match find_one col (idQuery s) with
      | none => Except.ok none
      | some doc => Except.map some (BookRepository.document_to_book_read doc)) = _
    rw [hf]
  unfold BookService.ensure_book_exists
  rw [hrepo]

theorem ensure_user_exists_invalid (s : String) (col : Collection)
    (h : isValidObjectId s = false) :
    UserService.ensure_user_exists s col
      = .error (.httpException 422 ("ID de usuario invalido: " ++ s)) := by
  have hrepo : UserRepository.get_user_by_id s col
      = .error (.valueError ("ID de usuario invalido: " ++ s)) := by
    unfold UserRepository.get_user_by_id UserRepository.to_object_id
    rw [if_neg (by simp [h])]
  unfold UserService.ensure_user_exists
  rw [hrepo]

theorem ensure_user_exists_missing (s : String) (col : Collection)
    (hv : isValidObjectId s = true) (hf : find_one col (idQuery s) = none) :
    UserService.ensure_user_exists s col
      = .error (.httpException 404 "Usuario no encontrado.") := by
  have hrepo : UserRepository.get_user_by_id s col = .ok none := by
    unfold UserRepository.get_user_by_id UserRepository.to_object_id
    rw [if_pos hv]
    show (match find_one col (idQuery s) with
      | none => Except.ok none
      | some doc => Except.map some (UserRepository.document_to_user_read doc)) = _
    rw [hf]
  unfold UserService.ensure_user_exists
  rw [hrepo]

/-! ### Claim theorems -/

/-- C1: on every identifier-taking operation of both services (get, update,
delete), a syntactically invalid identifier fails with the invalid-input
outcome (HTTP 422, never 404), and a syntactically valid identifier with no
matching document fails with the not-found outcome (HTTP 404, never 422). -/
theorem c1_id_error_discrimination (s : String) (bcol ucol : Collection)
    (bu : BookUpdate) (uu : UserUpdate) :
    (isValidObjectId s = false →
      BookService.get_book_by_id s bcol
          = .error (.httpException 422 ("ID de libro invalido: " ++ s)) ∧
      BookService.update_book s bu bcol
          = (.error (.httpException 422 ("ID de libro invalido: " ++ s)), bcol) ∧
      BookService.delete_book s bcol
          = (.error (.httpException 422 ("ID de libro invalido: " ++ s)), bcol) ∧
      UserService.get_user_by_id s ucol
          = .error (.httpException 422 ("ID de usuario invalido: " ++ s)) ∧
      UserService.update_user s uu ucol
          = (.error (.httpException 422 ("ID de usuario invalido: " ++ s)), ucol) ∧
      UserService.delete_user s ucol
          = (.error (.httpException 422 ("ID de usuario invalido: " ++ s)), ucol)) ∧
    (isValidObjectId s = true → find_one bcol (idQuery s) = none →
      BookService.get_book_by_id s bcol
          = .error (.httpException 404 "Libro no encontrado.") ∧
      BookService.update_book s bu bcol
          = (.error (.httpException 404 "Libro no encontrado."), bcol) ∧
      BookService.delete_book s bcol
          = (.error (.httpException 404 "Libro no encontrado."), bcol)) ∧
    (isValidObjectId s = true → find_one ucol (idQuery s) = none →
      UserService.get_user_by_id s ucol
          = .error (.httpException 404 "Usuario no encontrado.") ∧
      UserService.update_user s uu ucol
          = (.error (.httpException 404 "Usuario no encontrado."), ucol) ∧
      UserService.delete_user s ucol
          = (.error (.httpException 404 "Usuario no encontrado."), ucol)) := by
  refine ⟨fun h => ?_, fun hv hf => ?_, fun hv hf => ?_⟩
  · have hb := ensure_book_exists_invalid s bcol h
    have hu := ensure_user_exists_invalid s ucol h
    refine ⟨?_, ?_, ?_, ?_, ?_, ?_⟩
    · unfold BookService.get_book_by_id; rw [hb]
    · unfold BookService.update_book; rw [hb]
    · unfold BookService.delete_book; rw [hb]
    · unfold UserService.get_user_by_id; rw [hu]
    · unfold UserService.update_user; rw [hu]
    · unfold UserService.delete_user; rw [hu]
  · have hb := ensure_book_exists_missing s bcol hv hf
    refine ⟨?_, ?_, ?_⟩
    · unfold BookService.get_book_by_id; rw [hb]
    · unfold BookService.update_book; rw [hb]
    · unfold BookService.delete_book; rw [hb]
  · have hu := ensure_user_exists_missing s ucol hv hf
    refine ⟨?_, ?_, ?_⟩
    · unfold UserService.get_user_by_id; rw [hu]
    · unfold UserService.update_user; rw [hu]
    · unfold UserService.delete_user; rw [hu]

/-- Witness for C1 at concrete inputs: the invalid identifier "xyz" is
rejected as 422 on all six operations, and the valid identifier made of 24
hex characters is reported as 404 on an empty store. -/
theorem c1_id_error_discrimination_witness :
    BookService.get_book_by_id "xyz" []
        = .error (.httpException 422 ("ID de libro invalido: " ++ "xyz")) ∧
    UserService.delete_user "xyz" []
        = (.error (.httpException 422 ("ID de usuario invalido: " ++ "xyz")), []) ∧
    BookService.update_book fixId1 fixEmptyBookUpdate []
        = (.error (.httpException 404 "Libro no encontrado."), []) ∧
    UserService.get_user_by_id fixId1 []
        = .error (.httpException 404 "Usuario no encontrado.") := by
  obtain ⟨h1, h2, h3⟩ := c1_id_error_discrimination "xyz" [] [] fixEmptyBookUpdate
    fixEmptyUserUpdate
  obtain ⟨g1, g2, g3⟩ := c1_id_error_discrimination fixId1 [] [] fixEmptyBookUpdate
    fixEmptyUserUpdate
  exact ⟨(h1 (by decide)).1, (h1 (by decide)).2.2.2.2.2,
    (g2 (by decide) (by decide)).2.1, (g3 (by decide) (by decide)).1⟩

/-- C3: a repository update with a non-empty set of explicitly supplied
fields rewrites exactly the matched stored document to `setFields` of the
update data, for both entities: every supplied field now holds its supplied
value, every omitted field of the stored document keeps its pre-update
value, and all other documents are untouched (the store is exactly the old
one with that single document replaced). -/
theorem c3_partial_update_frame :
    (∀ (bid : String) (bu : BookUpdate) (pre post : Collection) (d : Doc),
      isValidObjectId bid = true → bu.dump_set ≠ [] →
      (∀ e ∈ pre, docMatches e (idQuery bid) = false) →
      docMatches d (idQuery bid) = true →
      (BookRepository.update_book bid bu (pre ++ d :: post)).2
          = pre ++ setFields d bu.dump_set :: post ∧
      (∀ k v, (k, v) ∈ bu.dump_set → getField (setFields d bu.dump_set) k = some v) ∧
      (∀ k, k ∉ bu.dump_set.map Prod.fst →
        getField (setFields d bu.dump_set) k = getField d k)) ∧
    (∀ (uid : String) (uu : UserUpdate) (pre post : Collection) (d : Doc),
      isValidObjectId uid = true → uu.dump_set ≠ [] →
      (∀ e ∈ pre, docMatches e (idQuery uid) = false) →
      docMatches d (idQuery uid) = true →
      (UserRepository.update_user uid uu (pre ++ d :: post)).2
          = pre ++ setFields d uu.dump_set :: post ∧
      (∀ k v, (k, v) ∈ uu.dump_set → getField (setFields d uu.dump_set) k = some v) ∧
      (∀ k, k ∉ uu.dump_set.map Prod.fst →
        getField (setFields d uu.dump_set) k = getField d k)) := by
  constructor
  · intro bid bu pre post d hv hne hpre hd
    exact ⟨update_book_store_shape bid bu pre post d hv hne hpre hd,
      fun k v hkv => getField_setFields_mem _ _ _ _ (bookUpdate_keys_nodup bu) hkv,
      fun k hk => getField_setFields_not_mem _ _ _ hk⟩
  · intro uid uu pre post d hv hne hpre hd
    exact ⟨update_user_store_shape uid uu pre post d hv hne hpre hd,
      fun k v hkv => getField_setFields_mem _ _ _ _ (userUpdate_keys_nodup uu) hkv,
      fun k hk => getField_setFields_not_mem _ _ _ hk⟩

/-- Witness for C3 at concrete inputs: updating only the title of the
stored fixture book leaves author, genre, published_year and total_copies
untouched in the store, and similarly for a user's last name. -/
theorem c3_partial_update_frame_witness :
    ((BookRepository.update_book fixId1 { title := some "New Title" } [fixBookDoc]).2
        = [setFields fixBookDoc [("title", vStr "New Title")]] ∧
      getField (setFields fixBookDoc [("title", vStr "New Title")]) "title"
        = some (vStr "New Title") ∧
      getField (setFields fixBookDoc [("title", vStr "New Title")]) "author"
        = getField fixBookDoc "author") ∧
    ((UserRepository.update_user fixId1 { last_name := some "King" } [fixUserDoc]).2
        = [setFields fixUserDoc [("last_name", vStr "King")]] ∧
      getField (setFields fixUserDoc [("last_name", vStr "King")]) "email"
        = getField fixUserDoc "email") := by
  obtain ⟨hb, hu⟩ := c3_partial_update_frame
  obtain ⟨b1, b2, b3⟩ := hb fixId1 { title := some "New Title" } [] [] fixBookDoc
    (by decide) (by decide) (by intro e he; simp at he) (by decide)
  obtain ⟨u1, u2, u3⟩ := hu fixId1 { last_name := some "King" } [] [] fixUserDoc
    (by decide) (by decide) (by intro e he; simp at he) (by decide)
  exact ⟨⟨b1, b2 "title" (vStr "New Title") (by decide),
    b3 "author" (by decide)⟩, ⟨u1, u3 "email" (by decide)⟩⟩

/-- C7: both service list operations reject any `limit` above 200 with the
invalid-input outcome (HTTP 422) before any repository call (for every
store, skip and filters the result is that same error), and for `limit` at
most 200 the ceiling check does not reject: the call is delegated to the
repository list unchanged (with the e-mail filter normalized on the user
side). -/
theorem c7_list_limit_ceiling (sk lim : Int)
    (filters : Option (List (String × Value))) (bcol ucol : Collection) :
    (lim > 200 →
      BookService.list_books sk lim filters bcol
          = .error (.httpException 422 "El parametro limit no puede ser mayor a 200.") ∧
      UserService.list_users sk lim filters ucol
          = .error (.httpException 422 "El parametro limit no puede ser mayor a 200.")) ∧
    (lim ≤ 200 →
      BookService.list_books sk lim filters bcol
          = BookRepository.list_books sk lim filters bcol ∧
      UserService.list_users sk lim filters ucol
          = UserRepository.list_users sk lim (UserService.normalize_filters filters) ucol) := by
  constructor
  · intro h
    constructor
    · unfold BookService.list_books
      rw [if_pos h]
    · unfold UserService.list_users
      rw [if_pos h]
  · intro h
    constructor
    · unfold BookService.list_books
      rw [if_neg (by omega)]
    · unfold UserService.list_users
      rw [if_neg (by omega)]

/-- Witness for C7 at concrete inputs: limit 201 is rejected on both
services over an empty store and limit 200 is delegated to the repository. -/
theorem c7_list_limit_ceiling_witness :
    BookService.list_books 0 201 none []
        = .error (.httpException 422 "El parametro limit no puede ser mayor a 200.") ∧
    UserService.list_users 0 201 none []
        = .error (.httpException 422 "El parametro limit no puede ser mayor a 200.") ∧
    BookService.list_books 0 200 none [] = BookRepository.list_books 0 200 none [] ∧
    UserService.list_users 0 200 none []
        = UserRepository.list_users 0 200 (UserService.normalize_filters none) [] := by
  obtain ⟨h1, h2⟩ := c7_list_limit_ceiling 0 201 none [] []
  obtain ⟨g1, g2⟩ := c7_list_limit_ceiling 0 200 none [] []
  obtain ⟨ha, hb⟩ := h1 (by decide)
  obtain ⟨hc, hd⟩ := g2 (by decide)
  exact ⟨ha, hb, hc, hd⟩

/-- C9: `_document_to_book_read` builds the `BookRead` keyword arguments
without `published_year`, a required field of `BookRead`, so it fails with
a pydantic validation error on every stored book document; consequently
every repository operation that must produce a book read model — create,
get on an existing book, list over a non-empty page, update with supplied
fields on an existing book — fails with that model-validation error
instead of returning a read model. -/
theorem c9_book_read_model_validation_failure :
    (∀ d : Doc, bookDocFields d = true →
      BookRepository.document_to_book_read d
          = .error (.validationError bookReadErrMsg)) ∧
    (∀ (b : BookCreate) (yr : Int) (newId : String) (col : Collection),
      find_one col (idQuery newId) = none →
      (BookRepository.create_book b yr newId col).1
          = .error (.validationError bookReadErrMsg)) ∧
    (∀ (bid : String) (col : Collection) (d : Doc),
      isValidObjectId bid = true → find_one col (idQuery bid) = some d →
      bookDocFields d = true →
      BookRepository.get_book_by_id bid col
          = .error (.validationError bookReadErrMsg)) ∧
    (∀ (sk lim : Int) (filters : Option (List (String × Value))) (col : Collection)
      (d : Doc) (rest : List Doc),
      mongoLimit lim (mongoSkip sk (matchingDocs col (filters.getD []))) = d :: rest →
      bookDocFields d = true →
      BookRepository.list_books sk lim filters col
          = .error (.validationError bookReadErrMsg)) ∧
    (∀ (bid : String) (bu : BookUpdate) (col : Collection) (d : Doc),
      isValidObjectId bid = true → bu.dump_set ≠ [] →
      find_one col (idQuery bid) = some d → bookDocFields d = true →
      (BookRepository.update_book bid bu col).1
          = .error (.validationError bookReadErrMsg)) := by
  refine ⟨document_to_book_read_error, ?_, ?_, ?_, ?_⟩
  · intro b yr newId col hfresh
    rw [create_book_validation_error b yr newId col hfresh]
  · intro bid col d hv hf hd
    exact get_book_by_id_validation_error bid col d hv hf hd
  · intro sk lim filters col d rest hpage hd
    exact list_books_validation_error sk lim filters col d rest hpage hd
  · intro bid bu col d hv hne hf hd
    obtain ⟨pre, post, hcol, hpre, hm⟩ := find_one_decomp col (idQuery bid) d hf
    rw [hcol, update_book_validation_error bid bu pre post d hv hne hpre hm hd]

/-- Witness for C9 at concrete inputs: the conversion and all four
read-model-returning repository operations fail with the validation error
on the stored fixture book. -/
theorem c9_book_read_model_validation_failure_witness :
    BookRepository.document_to_book_read fixBookDoc
        = .error (.validationError bookReadErrMsg) ∧
    (BookRepository.create_book fixBook 2026 fixId1 []).1
        = .error (.validationError bookReadErrMsg) ∧
    BookRepository.get_book_by_id fixId1 [fixBookDoc]
        = .error (.validationError bookReadErrMsg) ∧
    BookRepository.list_books 0 50 none [fixBookDoc]
        = .error (.validationError bookReadErrMsg) ∧
    (BookRepository.update_book fixId1 { title := some "New Title" } [fixBookDoc]).1
        = .error (.validationError bookReadErrMsg) := by
  obtain ⟨t1, t2, t3, t4, t5⟩ := c9_book_read_model_validation_failure
  exact ⟨t1 fixBookDoc (by decide), t2 fixBook 2026 fixId1 [] (by decide),
    t3 fixId1 [fixBookDoc] fixBookDoc (by decide) (by decide) (by decide),
    t4 0 50 none [fixBookDoc] fixBookDoc [] (by decide) (by decide),
    t5 fixId1 { title := some "New Title" } [fixBookDoc] fixBookDoc (by decide)
      (by decide) (by decide) (by decide)⟩

theorem document_to_user_read_insert (u : UserCreate) (oid : String)
    (hrole : roleValid u.role = true) :
    UserRepository.document_to_user_read (setField u.model_dump "_id" (vStr oid))
      = .ok ⟨oid, u.first_name, u.last_name, u.email, u.role⟩ := by
  have h0 : UserRepository.document_to_user_read (setField u.model_dump "_id" (vStr oid))
      = if roleValid u.role = true
        then .ok ⟨oid, u.first_name, u.last_name, u.email, u.role⟩
        else .error (.validationError userReadErrMsg) := rfl
  rw [h0, if_pos hrole]

theorem user_service_create_ok (u : UserCreate) (oid : String) (col : Collection)
    (hrole : roleValid u.role = true)
    (hfresh : find_one col (idQuery oid) = none)
    (hnoemail : find_one col [("email", vStr (normalize_str u.email))] = none) :
    UserService.create_user u oid col
      = (.ok ⟨oid, u.first_name, u.last_name, normalize_str u.email, u.role⟩,
         insert_one col oid ({ u with email := normalize_str u.email } : UserCreate).model_dump) := by
  have ha : UserService.ensure_not_duplicated_on_create
      { u with email := normalize_str u.email } col = .ok () := by
    unfold UserService.ensure_not_duplicated_on_create UserRepository.get_user_by_email
    show (match (match find_one col
          [("email", vStr (normalize_str (normalize_str u.email)))] with
        | none => Except.ok none
        | some doc => Except.map some (UserRepository.document_to_user_read doc)
        : Except PyErr (Option UserRead)) with
      | .error e => Except.error e
      | .ok (some _) =>
        Except.error (.httpException 409 "Ya existe un usuario con ese email.")
      | .ok none => Except.ok ()) = Except.ok ()
    rw [normalize_str_idem, hnoemail]
  have hconv := document_to_user_read_insert { u with email := normalize_str u.email }
    oid hrole
  have hrepo : UserRepository.create_user { u with email := normalize_str u.email } oid col
      = (.ok ⟨oid, u.first_name, u.last_name, normalize_str u.email, u.role⟩,
         insert_one col oid ({ u with email := normalize_str u.email } : UserCreate).model_dump) := by
    simp only [UserRepository.create_user]
    rw [find_one_insert_fresh col oid _ hfresh]
    show (UserRepository.document_to_user_read
        (setField ({ u with email := normalize_str u.email } : UserCreate).model_dump
          "_id" (vStr oid)),
      insert_one col oid ({ u with email := normalize_str u.email } : UserCreate).model_dump) = _
    rw [hconv]
  simp only [UserService.create_user]
  rw [ha, hrepo]

theorem user_service_create_conflict (u : UserCreate) (oid : String) (col : Collection)
    (d : Doc) (r : UserRead)
    (hhit : find_one col [("email", vStr (normalize_str u.email))] = some d)
    (hconv : UserRepository.document_to_user_read d = .ok r) :
    UserService.create_user u oid col
      = (.error (.httpException 409 "Ya existe un usuario con ese email."), col) := by
  have ha : UserService.ensure_not_duplicated_on_create
      { u with email := normalize_str u.email } col
        = .error (.httpException 409 "Ya existe un usuario con ese email.") := by
    unfold UserService.ensure_not_duplicated_on_create UserRepository.get_user_by_email
    show (match (match find_one col
          [("email", vStr (normalize_str (normalize_str u.email)))] with
        | none => Except.ok none
        | some doc => Except.map some (UserRepository.document_to_user_read doc)
        : Except PyErr (Option UserRead)) with
      | .error e => Except.error e
      | .ok (some _) =>
        Except.error (.httpException 409 "Ya existe un usuario con ese email.")
      | .ok none => Except.ok ()) = _
    rw [normalize_str_idem, hhit]
    show (match (Except.map some (UserRepository.document_to_user_read d)
        : Except PyErr (Option UserRead)) with
      | .error e => Except.error e
      | .ok (some _) =>
        Except.error (.httpException 409 "Ya existe un usuario con ese email.")
      | .ok none => Except.ok ()) = _
    rw [hconv]
    rfl
  simp only [UserService.create_user]
  rw [ha]

/-- C6: user e-mail uniqueness is case-insensitive after trimming: two
sequential user creates whose e-mails agree after `strip().lower()` make
the first succeed with the normalized e-mail stored, and the second fail
with conflict (HTTP 409) through the dedicated normalized-e-mail lookup,
leaving the store unchanged. -/
theorem c6_user_email_case_insensitive_unique
    (u1 u2 : UserCreate) (col : Collection) (id1 id2 : String)
    (hrole : roleValid u1.role = true)
    (hfresh : find_one col (idQuery id1) = none)
    (hnoemail : find_one col [("email", vStr (normalize_str u1.email))] = none)
    (heq : normalize_str u1.email = normalize_str u2.email) :
    UserService.create_user u1 id1 col
        = (.ok ⟨id1, u1.first_name, u1.last_name, normalize_str u1.email, u1.role⟩,
           insert_one col id1
             ({ u1 with email := normalize_str u1.email } : UserCreate).model_dump) ∧
    UserService.create_user u2 id2
        (insert_one col id1
          ({ u1 with email := normalize_str u1.email } : UserCreate).model_dump)
        = (.error (.httpException 409 "Ya existe un usuario con ese email."),
           insert_one col id1
             ({ u1 with email := normalize_str u1.email } : UserCreate).model_dump) := by
  refine ⟨user_service_create_ok u1 id1 col hrole hfresh hnoemail, ?_⟩
  have hm : docMatches
      (setField ({ u1 with email := normalize_str u1.email } : UserCreate).model_dump
        "_id" (vStr id1))
      [("email", vStr (normalize_str u2.email))] = true := by
    rw [← heq]
    simp only [docMatches, List.all_cons, List.all_nil, Bool.and_true,
      decide_eq_true_eq]
    rfl
  have hhit : find_one
      (insert_one col id1
        ({ u1 with email := normalize_str u1.email } : UserCreate).model_dump)
      [("email", vStr (normalize_str u2.email))]
        = some (setField
            ({ u1 with email := normalize_str u1.email } : UserCreate).model_dump
            "_id" (vStr id1)) := by
    unfold insert_one
    rw [find_one_append_left_none _ _ _ (heq ▸ hnoemail)]
    have := find_one_of_decomp [] [] [("email", vStr (normalize_str u2.email))]
      (setField ({ u1 with email := normalize_str u1.email } : UserCreate).model_dump
        "_id" (vStr id1)) (by simp) hm
    simpa using this
  exact user_service_create_conflict u2 id2 _ _ _ hhit
    (document_to_user_read_insert { u1 with email := normalize_str u1.email } id1 hrole)

/-- Witness for C6 at the spec's concrete scenario: creating a user with
e-mail " A@Test.Com " succeeds storing "a@test.com", and a second create
with "a@test.com" is rejected as a 409 conflict with the store unchanged. -/
theorem c6_user_email_case_insensitive_unique_witness :
    UserService.create_user { fixUser with email := " A@Test.Com " } fixId1 []
        = (.ok ⟨fixId1, "Ada", "Lovelace", "a@test.com", "admin"⟩,
           insert_one [] fixId1
             ({ fixUser with email := "a@test.com" } : UserCreate).model_dump) ∧
    UserService.create_user { fixUser2 with email := "a@test.com" } fixId2
        (insert_one [] fixId1
          ({ fixUser with email := "a@test.com" } : UserCreate).model_dump)
        = (.error (.httpException 409 "Ya existe un usuario con ese email."),
           insert_one [] fixId1
             ({ fixUser with email := "a@test.com" } : UserCreate).model_dump) := by
  obtain ⟨h1, h2⟩ := c6_user_email_case_insensitive_unique
    { fixUser with email := " A@Test.Com " } { fixUser2 with email := "a@test.com" }
    [] fixId1 fixId2 (by decide) (by decide) (by decide) (by decide)
  exact ⟨h1, h2⟩

/-- C2 (create round-trip, at the failing input): the user repository
create inserts the dumped model, re-reads it under the assigned identifier
and returns the read model built from the re-read document; the book
repository create performs the same insert and re-read, but the final
read-model construction fails with the missing-`published_year`
validation error (instead of returning a `BookRead`), which the service
propagates unchanged — the document is nevertheless inserted. -/
theorem c2_create_reread_roundtrip :
    UserRepository.create_user fixUser fixId1 []
        = (.ok ⟨fixId1, "Ada", "Lovelace", "ada@test.com", "admin"⟩,
           [setField fixUser.model_dump "_id" (vStr fixId1)]) ∧
    BookRepository.create_book fixBook 2026 fixId1 []
        = (.error (.validationError bookReadErrMsg), [fixBookDoc]) ∧
    BookService.create_book fixBook 2026 fixId1 []
        = (.error (.validationError bookReadErrMsg), [fixBookDoc]) := by
  decide

/-- C4 (empty update, at the failing input): on an existing book the empty
update raises the book read-model validation error during the existence
check instead of returning the current entity — though it still performs
no write — and on a missing valid identifier it fails with 404; the user
side shows the intended behaviour: the current entity is returned
unchanged with no write. -/
theorem c4_empty_update_noop :
    BookService.update_book fixId1 fixEmptyBookUpdate [fixBookDoc]
        = (.error (.validationError bookReadErrMsg), [fixBookDoc]) ∧
    BookService.update_book fixId2 fixEmptyBookUpdate [fixBookDoc]
        = (.error (.httpException 404 "Libro no encontrado."), [fixBookDoc]) ∧
    UserService.update_user fixId1 fixEmptyUserUpdate [fixUserDoc]
        = (.ok ⟨fixId1, "Ada", "Lovelace", "ada@test.com", "admin"⟩, [fixUserDoc]) := by
  decide

/-- C5 (sequential duplicate book creates, at the failing input): the
first create inserts the document but raises the read-model validation
error instead of succeeding; the second create raises the same validation
error inside the duplicate check (while converting the matching document)
rather than the 409 conflict, before attempting any insertion — the store
still holds exactly one document after both calls. -/
theorem c5_sequential_duplicate_creates :
    BookService.create_book fixBook 2026 fixId1 []
        = (.error (.validationError bookReadErrMsg), [fixBookDoc]) ∧
    BookService.create_book fixBook 2026 fixId2 [fixBookDoc]
        = (.error (.validationError bookReadErrMsg), [fixBookDoc]) ∧
    (BookService.create_book fixBook 2026 fixId2 [fixBookDoc]).1
        ≠ .error (.httpException 409
            "Ya existe un libro con los mismos datos (posible duplicado).") := by
  decide

/-- C8 (repository list, at the failing input): the book repository list
raises the read-model validation error on any non-empty page instead of
returning the sequence; the user repository list shows the specified
behaviour: exact-match filtering, offset `skip`, and at most `limit`
results. -/
theorem c8_repository_list_page :
    BookRepository.list_books 0 50 none [fixBookDoc]
        = .error (.validationError bookReadErrMsg) ∧
    UserRepository.list_users 0 50 (some [("role", vStr "admin")])
        [fixUserDoc, fixUserDoc2, fixUserDoc3]
        = .ok [⟨fixId1, "Ada", "Lovelace", "ada@test.com", "admin"⟩,
               ⟨fixId3, "Alan", "Turing", "alan@test.com", "admin"⟩] ∧
    UserRepository.list_users 1 1 none [fixUserDoc, fixUserDoc2, fixUserDoc3]
        = .ok [⟨fixId2, "Grace", "Hopper", "grace@test.com", "user"⟩] ∧
    UserRepository.list_users 0 2 none [fixUserDoc, fixUserDoc2, fixUserDoc3]
        = .ok [⟨fixId1, "Ada", "Lovelace", "ada@test.com", "admin"⟩,
               ⟨fixId2, "Grace", "Hopper", "grace@test.com", "user"⟩] := by
  decide

/-- C10 (book update duplicate check, at the failing input): updating book
A's title and author to those of existing book B never yields the 409
duplicate conflict — no duplicate check exists on update — but the
operation also does not succeed with ok: it raises the book read-model
validation error during the existence check, before any write. -/
theorem c10_update_no_duplicate_check :
    BookService.update_book fixId1
        { title := some "Refactoring", author := some "Martin Fowler" }
        [fixBookDoc, fixBookDoc2]
        = (.error (.validationError bookReadErrMsg), [fixBookDoc, fixBookDoc2]) ∧
    (BookService.update_book fixId1
        { title := some "Refactoring", author := some "Martin Fowler" }
        [fixBookDoc, fixBookDoc2]).1
        ≠ .error (.httpException 409
            "Ya existe un libro con los mismos datos (posible duplicado).") := by
  decide
